import Mathlib

/-!
Verification of the Afriscore savings/payments/security core.

Shallow embedding conventions, used throughout:
* Python `datetime` values are abstracted to an integer timeline (`Int`,
  units of minutes); `datetime.now()` becomes an explicit `now : Int`
  argument; `timedelta(minutes=m)` is the integer `m`, `timedelta(hours=h)`
  is `60 * h` (so 24 hours = 1440, 30 minutes = 30).
* Monetary amounts are rationals (`Rat`), idealising Python floats.
  Python `round(x, 2)` (round-half-even to 2 decimals) is `round2` below.
* Python dicts (insertion ordered) are association lists
  `List (String × α)`; assignment `d[k] = v` is `dictSet` (update in place,
  append new keys at the end), `d.get`/`in` is `List.lookup`.
* `random.shuffle` / `random.choices` take their outcome from an explicit
  oracle argument: shuffling functions receive `σ : List String → List String`
  (the source guarantees the result is a permutation of the input; theorems
  that need this take it as a hypothesis), and PIN-code generation receives
  the drawn code as an argument (the source draws 5 random digits with no
  further constraint).
* A Python method that can `raise` is modelled as returning
  `Except String r × State`: the second component is the object state when
  the call returns or raises (mutations made before a raise persist, as in
  Python).  Error strings follow the source text; interpolated numerals that
  vary at run time are elided from messages.
-/

namespace Afriscore

/-- Python dict assignment `d[k] = v`: replaces the value at an existing key
in place, otherwise appends the binding at the end (insertion order). -/
def dictSet {α : Type} (k : String) (v : α) : List (String × α) → List (String × α)
  | [] => [(k, v)]
  | (k', v') :: rest => if k' = k then (k, v) :: rest else (k', v') :: dictSet k v rest

/-- Update the value stored at key `k` (no-op when the key is absent). -/
def dictModify {α : Type} (k : String) (f : α → α) : List (String × α) → List (String × α)
  | [] => []
  | (k', v') :: rest => if k' = k then (k', f v') :: rest else (k', v') :: dictModify k f rest

/-- Round a rational to the nearest integer, halves up (`⌊x + 1/2⌋`),
written with the executable `Rat.floor`. -/
def ratRound (x : Rat) : Int := Rat.floor (x + 1 / 2)

/-- Round-half-even applied to a rational: nearest integer, ties to even
(the tie-breaking rule of Python's `round`). -/
def roundHalfEven (x : Rat) : Int :=
  if x - Rat.floor x = 1 / 2 then 2 * ratRound (x / 2) else ratRound x

/-- Python `round(x, 2)`: round to 2 decimal places, ties to even. -/
def round2 (x : Rat) : Rat := (roundHalfEven (100 * x) : Rat) / 100

theorem ratFloor_eq_floor (q : Rat) : Rat.floor q = ⌊q⌋ := by
  rw [Rat.floor_def, Rat.floor_def']

theorem roundHalfEven_intCast (k : Int) : roundHalfEven (k : Rat) = k := by
  unfold roundHalfEven ratRound
  rw [ratFloor_eq_floor, Int.floor_intCast]
  rw [if_neg (by norm_num)]
  rw [ratFloor_eq_floor, add_comm, Int.floor_add_int]
  norm_num

/-- `round2` is the identity on whole numbers of cents. -/
theorem round2_cent (k : Int) : round2 ((k : Rat) / 100) = (k : Rat) / 100 := by
  unfold round2
  have h : (100 : Rat) * ((k : Rat) / 100) = (k : Rat) := by field_simp
  rw [h, roundHalfEven_intCast]

/-! ## savings.py -/

/-- `MemberStatus` (savings.py). -/
inductive MemberStatus
  | pending
  | accepted
  | rejected
  | left
deriving DecidableEq

/-- `VoteType` (savings.py). -/
inductive VoteType
  | manager_change
  | monthly_amount_change
deriving DecidableEq

/-- One entry of `Stokvel.members`: the per-member dict
`{status, joined/invited/left timestamps, phone, is_manager}`. -/
structure MemberData where
  status : MemberStatus
  is_manager : Bool
  joined_at : Option Int := none
  invited_at : Option Int := none
  left_at : Option Int := none
  phone_number : Option String := none
deriving DecidableEq

/-- One entry of a contribution ledger: `{'amount': ..., 'date': ...}`. -/
structure Contribution where
  amount : Rat
  date : Int
deriving DecidableEq

/-- A vote's proposal payload, e.g. `{'new_manager': ...}` or
`{'new_amount': ...}`; absent dict keys are `none`. -/
structure Proposal where
  new_manager : Option String := none
  new_amount : Option Rat := none
deriving DecidableEq

/-- `Vote` (savings.py). -/
structure Vote where
  vote_id : String
  stokvel_id : String
  vote_type : VoteType
  proposal : Proposal
  initiated_by : String
  votes : List (String × Bool) := []
  created_at : Int
  expires_at : Int
  is_active : Bool := true
  passed : Bool := false
deriving DecidableEq

/-- `Vote.cast_vote`: record/overwrite the member's ballot. -/
def Vote.cast_vote (v : Vote) (member_id : String) (vote_yes : Bool) : Vote :=
  { v with votes := dictSet member_id vote_yes v.votes }

/-- Number of yes-ballots currently recorded on the vote. -/
def Vote.yes_votes (v : Vote) : Nat := (v.votes.filter (fun p => p.2)).length

/-- `Vote.check_if_passed`: pass when yes-ballots reach the majority
threshold `total_members / 2 + 1`; otherwise expire the vote when past
`expires_at`.  Returns the boolean result and the updated vote. -/
def Vote.check_if_passed (v : Vote) (total_members : Nat) (now : Int) : Bool × Vote :=
  if ¬ v.is_active then
    (v.passed, v)
  else
    let required := total_members / 2 + 1
    if v.yes_votes ≥ required then
      (true, { v with passed := true, is_active := false })
    else if now ≥ v.expires_at then
      (false, { v with is_active := false })
    else
      (false, v)

/-- `Stokvel` (savings.py).  `payout_schedule` pairs each member with a
payout month; calendar months are abstracted to consecutive integers
starting from the month after `now`. -/
structure Stokvel where
  stokvel_id : String
  name : String
  manager_id : String
  monthly_amount : Rat
  members : List (String × MemberData)
  contributions : List (String × List Contribution)
  payout_schedule : List (String × Int) := []
  votes : List (String × Vote) := []
  created_at : Int
  vote_counter : Nat := 0
deriving DecidableEq

/-- `Stokvel.MIN_MEMBERS`. -/
def Stokvel.MIN_MEMBERS : Nat := 2

/-- `Stokvel.MAX_MEMBERS`. -/
def Stokvel.MAX_MEMBERS : Nat := 10

/-- `Stokvel.__init__`: validates the monthly amount and creates the group
with the creator as accepted manager. -/
def Stokvel.create (stokvel_id name creator_id : String) (monthly_amount : Rat)
    (now : Int) : Except String Stokvel :=
  if monthly_amount ≤ 0 ∨ monthly_amount > 5000 then
    .error "Monthly amount must be between R0 and R5,000."
  else
    .ok { stokvel_id := stokvel_id
          name := name
          manager_id := creator_id
          monthly_amount := monthly_amount
          members := [(creator_id,
            { status := .accepted, is_manager := true, joined_at := some now })]
          contributions := [(creator_id, [])]
          created_at := now }

/-- `Stokvel.get_accepted_members`. -/
def Stokvel.get_accepted_members (s : Stokvel) : List String :=
  (s.members.filter (fun p => decide (p.2.status = MemberStatus.accepted))).map (·.1)

/-- `Stokvel._calculate_payout_dates`: reshuffle the accepted members
(oracle `σ`) and assign consecutive payout months starting next month. -/
def Stokvel.calculate_payout_dates (s : Stokvel) (σ : List String → List String)
    (now : Int) : Stokvel :=
  let accepted := s.get_accepted_members
  if accepted.isEmpty then s
  else
    { s with payout_schedule :=
        (σ accepted).enum.map (fun p => (p.2, now + 1 + (p.1 : Int))) }

/-- `Stokvel.can_add_member`. -/
def Stokvel.can_add_member (s : Stokvel) : Bool :=
  s.get_accepted_members.length < Stokvel.MAX_MEMBERS

/-- `Stokvel.invite_member`. -/
def Stokvel.invite_member (s : Stokvel) (member_id phone : String) (now : Int) :
    Except String Bool × Stokvel :=
  if (List.lookup member_id s.members).isSome then
    (.error "Member already invited or is part of the stokvel.", s)
  else if ¬ s.can_add_member then
    (.error "Stokvel is full (maximum 10 members).", s)
  else
    let d : MemberData :=
      { status := .pending, is_manager := false,
        invited_at := some now, phone_number := some phone }
    (.ok true, { s with members := dictSet member_id d s.members })

/-- `Stokvel.accept_invitation`: flips a pending member to accepted and
recalculates the payout schedule. -/
def Stokvel.accept_invitation (s : Stokvel) (member_id : String)
    (σ : List String → List String) (now : Int) : Except String Bool × Stokvel :=
  match List.lookup member_id s.members with
  | none => (.error "No invitation found for this member.", s)
  | some d =>
    if d.status ≠ MemberStatus.pending then
      (.error "Invitation has already been processed.", s)
    else if ¬ s.can_add_member then
      (.error "Stokvel is full (maximum 10 members).", s)
    else
      let s1 := { s with
        members := dictModify member_id
          (fun m => { m with status := .accepted, joined_at := some now }) s.members,
        contributions := dictSet member_id [] s.contributions }
      (.ok true, s1.calculate_payout_dates σ now)

/-- `Stokvel.leave_stokvel`.  Note the source order: the member is marked
`left` (with `left_at` set) before the `MIN_MEMBERS` check, so the raise on
too-few remaining members leaves that mutation in place. -/
def Stokvel.leave_stokvel (s : Stokvel) (member_id : String)
    (σ : List String → List String) (now : Int) : Except String Bool × Stokvel :=
  match List.lookup member_id s.members with
  | none => (.error "Member not part of this stokvel.", s)
  | some d =>
    if d.status ≠ MemberStatus.accepted then
      (.error "Only accepted members can leave.", s)
    else if d.is_manager then
      if s.get_accepted_members.length ≤ 1 then
        (.error "Cannot leave - you are the last member. Delete the stokvel instead.", s)
      else
        (.error "As manager, you must transfer ownership before leaving or demote yourself to member.", s)
    else
      let s1 := { s with
        members := dictModify member_id
          (fun m => { m with status := .left, left_at := some now }) s.members }
      if s1.get_accepted_members.length < Stokvel.MIN_MEMBERS then
        (.error "Cannot leave - stokvel needs minimum 2 members.", s1)
      else
        (.ok true, s1.calculate_payout_dates σ now)

/-- `Stokvel._change_manager`: clear every `is_manager` flag, then set the
new manager (the source's `members[new_manager_id]` access is modelled as a
keyed update, a no-op for an absent key). -/
def Stokvel.change_manager (s : Stokvel) (new_manager_id : String) : Stokvel :=
  let cleared := s.members.map (fun p => (p.1, { p.2 with is_manager := false }))
  { s with
    manager_id := new_manager_id
    members := dictModify new_manager_id (fun m => { m with is_manager := true }) cleared }

/-- `Stokvel.cast_vote`: record the ballot, then check the pass condition
against the current accepted-member count and apply the proposal when it
passes.  The proposal payload fields are read with defaults (the source's
dict accesses; initiators always populate the field matching the type). -/
def Stokvel.cast_vote (s : Stokvel) (vote_id member_id : String) (vote_yes : Bool)
    (σ : List String → List String) (now : Int) : Except String Bool × Stokvel :=
  match List.lookup vote_id s.votes with
  | none => (.error "Vote not found.", s)
  | some v =>
    if member_id ∉ s.get_accepted_members then
      (.error "Only accepted members can vote.", s)
    else if ¬ v.is_active then
      (.error "This vote is no longer active.", s)
    else
      let v1 := v.cast_vote member_id vote_yes
      let total := s.get_accepted_members.length
      let r := v1.check_if_passed total now
      let s1 := { s with votes := dictSet vote_id r.2 s.votes }
      if r.1 then
        match r.2.vote_type with
        | .manager_change =>
            (.ok true, s1.change_manager (r.2.proposal.new_manager.getD ""))
        | .monthly_amount_change =>
            (.ok true,
              ({ s1 with monthly_amount := r.2.proposal.new_amount.getD 0
                 }).calculate_payout_dates σ now)
      else
        (.ok false, s1)

/-- `Stokvel.add_contribution`: validates membership and amount, then
appends to the member's ledger (the source's `contributions[member_id]`
access raises `KeyError` for an accepted member missing from the ledger
dict; that raise is modelled as an error). -/
def Stokvel.add_contribution (s : Stokvel) (member_id : String) (amount : Rat)
    (now : Int) : Except String Contribution × Stokvel :=
  match List.lookup member_id s.members with
  | none => (.error "Member not part of this stokvel.", s)
  | some d =>
    if d.status ≠ MemberStatus.accepted then
      (.error "Member has not accepted the invitation.", s)
    else if amount ≤ 0 ∨ amount > 5000 then
      (.error "Contribution must be between R0 and R5,000.", s)
    else
      match List.lookup member_id s.contributions with
      | none => (.error "KeyError", s)
      | some cs =>
        let c : Contribution := { amount := amount, date := now }
        (.ok c, { s with contributions := dictSet member_id (cs ++ [c]) s.contributions })

/-- `Stokvel.get_member_total`: the member's ledger sum rounded to cents
(`0.0` when the member has no ledger entry). -/
def Stokvel.get_member_total (s : Stokvel) (member_id : String) : Rat :=
  match List.lookup member_id s.contributions with
  | none => 0
  | some cs => round2 ((cs.map (·.amount)).sum)

/-- `Stokvel.get_stokvel_total`: sum the raw ledgers of all accepted
members, then round once to cents. -/
def Stokvel.get_stokvel_total (s : Stokvel) : Rat :=
  round2 ((s.get_accepted_members.map (fun m =>
    match List.lookup m s.contributions with
    | some cs => (cs.map (·.amount)).sum
    | none => 0)).sum)

/-- `IndividualSavings` (savings.py). -/
structure IndividualSavings where
  user_id : String
  savings_goal : Option Rat
  contributions : List Contribution := []
  created_at : Int
deriving DecidableEq

/-- `IndividualSavings.get_total_savings`. -/
def IndividualSavings.get_total_savings (s : IndividualSavings) : Rat :=
  round2 ((s.contributions.map (·.amount)).sum)

/-- `IndividualSavings.get_progress_percentage`: `None` when no goal is set
or the goal is zero, else the rounded percentage of the goal. -/
def IndividualSavings.get_progress_percentage (s : IndividualSavings) : Option Rat :=
  match s.savings_goal with
  | none => none
  | some g =>
    if g = 0 then none
    else some (round2 (s.get_total_savings / g * 100))

/-- `SavingsManager` (savings.py), restricted to the registries the claims
touch. -/
structure SavingsManager where
  stokvels : List (String × Stokvel) := []
  individual_savings : List (String × IndividualSavings) := []
deriving DecidableEq

/-- `SavingsManager.get_stokvel`. -/
def SavingsManager.get_stokvel (m : SavingsManager) (stokvel_id : String) :
    Except String Stokvel :=
  match List.lookup stokvel_id m.stokvels with
  | none => .error "Stokvel not found."
  | some s => .ok s

/-- `SavingsManager.get_individual_savings`. -/
def SavingsManager.get_individual_savings (m : SavingsManager) (user_id : String) :
    Except String IndividualSavings :=
  match List.lookup user_id m.individual_savings with
  | none => .error "Savings account not found for this user."
  | some s => .ok s

/-! ## payments.py -/

/-- `WithdrawalStatus` (payments.py). -/
inductive WithdrawalStatus
  | pending
  | completed
  | expired
  | cancelled
deriving DecidableEq

/-- The `.value` string of a `WithdrawalStatus`. -/
def WithdrawalStatus.value : WithdrawalStatus → String
  | .pending => "pending"
  | .completed => "completed"
  | .expired => "expired"
  | .cancelled => "cancelled"

/-- `WithdrawalType` (payments.py). -/
inductive WithdrawalType
  | individual_savings
  | stokvel_payout
deriving DecidableEq

/-- The `.value` string of a `WithdrawalType`. -/
def WithdrawalType.value : WithdrawalType → String
  | .individual_savings => "individual_savings"
  | .stokvel_payout => "stokvel_payout"

/-- `PaymentPIN` (payments.py). -/
structure PaymentPIN where
  pin_id : String
  user_id : String
  phone_number : String
  amount : Rat
  withdrawal_type : WithdrawalType
  source_id : Option String
  pin_code : String
  created_at : Int
  expires_at : Int
  status : WithdrawalStatus
  redeemed_at : Option Int
deriving DecidableEq

/-- `PaymentPIN.__init__`: the freshly drawn code (`_generate_pin`, 5 random
digits with no uniqueness check against existing pins) is passed in as
`code`; expiry is 24 hours (1440 minutes) after creation. -/
def PaymentPIN.create (pin_id user_id phone_number : String) (amount : Rat)
    (withdrawal_type : WithdrawalType) (source_id : Option String)
    (code : String) (now : Int) : PaymentPIN :=
  { pin_id := pin_id, user_id := user_id, phone_number := phone_number
    amount := amount, withdrawal_type := withdrawal_type, source_id := source_id
    pin_code := code, created_at := now, expires_at := now + 1440
    status := .pending, redeemed_at := none }

/-- `PaymentPIN.is_valid`: pending and not yet expired. -/
def PaymentPIN.is_valid (p : PaymentPIN) (now : Int) : Bool :=
  decide (p.status = WithdrawalStatus.pending ∧ now < p.expires_at)

/-- `PaymentPIN.mark_expired`: flips a pending pin past its expiry to
`expired`; otherwise a no-op returning `false`. -/
def PaymentPIN.mark_expired (p : PaymentPIN) (now : Int) : Bool × PaymentPIN :=
  if now ≥ p.expires_at ∧ p.status = WithdrawalStatus.pending then
    (true, { p with status := .expired })
  else
    (false, p)

/-- `PaymentPIN.redeem`: requires a valid (pending, unexpired) pin; on
success the status becomes `completed` and the redemption timestamp is set;
on failure the pin is unchanged. -/
def PaymentPIN.redeem (p : PaymentPIN) (now : Int) : Except String Bool × PaymentPIN :=
  if ¬ p.is_valid now then
    (.error "PIN is not valid or has expired.", p)
  else
    (.ok true, { p with status := .completed, redeemed_at := some now })

/-- `PaymentPIN.cancel`: only pending pins can be cancelled; on failure the
pin is unchanged. -/
def PaymentPIN.cancel (p : PaymentPIN) : Except String Bool × PaymentPIN :=
  if p.status ≠ WithdrawalStatus.pending then
    (.error "Can only cancel pending withdrawals.", p)
  else
    (.ok true, { p with status := .cancelled })

/-- One record of `StokvelPayoutSchedule.payout_history`. -/
structure PayoutRecord where
  member_id : String
  amount : Rat
  date : Int
  cycle_position : Nat
deriving DecidableEq

/-- `StokvelPayoutSchedule` (payments.py). -/
structure StokvelPayoutSchedule where
  stokvel_id : String
  payout_history : List PayoutRecord := []
  current_cycle_members : List String := []
  upcoming_payouts : List String := []
deriving DecidableEq

/-- `StokvelPayoutSchedule.initialize_payout_order` (named `init` here):
store a shuffled copy of the members (oracle `σ`) as both the cycle
membership and the upcoming queue. -/
def StokvelPayoutSchedule.init_payout_order (sch : StokvelPayoutSchedule)
    (member_ids : List String) (σ : List String → List String) :
    Except String (List String) × StokvelPayoutSchedule :=
  if member_ids.isEmpty then
    (.error "No members to initialize payout order.", sch)
  else
    let shuffled := σ member_ids
    (.ok shuffled,
      { sch with current_cycle_members := shuffled, upcoming_payouts := shuffled })

/-- `StokvelPayoutSchedule.get_next_payout_recipient`. -/
def StokvelPayoutSchedule.get_next_payout_recipient (sch : StokvelPayoutSchedule) :
    Option String :=
  sch.upcoming_payouts.head?

/-- `StokvelPayoutSchedule.is_member_next`. -/
def StokvelPayoutSchedule.is_member_next (sch : StokvelPayoutSchedule)
    (member_id : String) : Bool :=
  decide (sch.upcoming_payouts.head? = some member_id)

/-- `StokvelPayoutSchedule.complete_payout`: pop the queue head (must equal
`member_id`), append a history record, and start a fresh shuffled cycle when
the queue empties. -/
def StokvelPayoutSchedule.complete_payout (sch : StokvelPayoutSchedule)
    (member_id : String) (amount : Rat) (σ : List String → List String)
    (now : Int) : Except String PayoutRecord × StokvelPayoutSchedule :=
  match sch.upcoming_payouts with
  | [] => (.error "No upcoming payouts scheduled.", sch)
  | head :: rest =>
    if head ≠ member_id then
      (.error ("It\x27s not " ++ member_id ++ "\x27s turn for payout yet."), sch)
    else
      let rec0 : PayoutRecord :=
        { member_id := member_id, amount := amount, date := now
          cycle_position := sch.current_cycle_members.length - rest.length }
      let sch1 := { sch with upcoming_payouts := rest
                             payout_history := sch.payout_history ++ [rec0] }
      if rest.isEmpty then
        (.ok rec0, (sch1.init_payout_order sch1.current_cycle_members σ).2)
      else
        (.ok rec0, sch1)

/-- The disbursement receipt returned by `verify_and_redeem_pin`
(`{'success': True, 'amount', 'user_id', 'withdrawal_type', 'redeemed_at'}`;
the constant `success` key is dropped). -/
structure Receipt where
  amount : Rat
  user_id : String
  withdrawal_type : WithdrawalType
  redeemed_at : Option Int
deriving DecidableEq

/-- `PaymentsManager` (payments.py). -/
structure PaymentsManager where
  savings_manager : SavingsManager
  pins : List (String × PaymentPIN) := []
  stokvel_schedules : List (String × StokvelPayoutSchedule) := []
  pin_counter : Nat := 0
deriving DecidableEq

/-- `PaymentsManager._generate_pin_id` (the date component of the id string
is elided; uniqueness per manager comes from the counter). -/
def PaymentsManager.generate_pin_id (pm : PaymentsManager) :
    String × PaymentsManager :=
  let n := pm.pin_counter + 1
  ("PIN_" ++ toString n, { pm with pin_counter := n })

/-- `PaymentsManager._cleanup_expired_pins`: lazily expire every pin past
its expiry. -/
def PaymentsManager.cleanup_expired_pins (pm : PaymentsManager) (now : Int) :
    PaymentsManager :=
  { pm with pins := pm.pins.map (fun kp => (kp.1, (kp.2.mark_expired now).2)) }

/-- `PaymentsManager.get_or_create_schedule`: return the stored schedule,
or create one seeded with a shuffle of the stokvel's current accepted
members (left uninitialized when there are none). -/
def PaymentsManager.get_or_create_schedule (pm : PaymentsManager)
    (stokvel_id : String) (σ : List String → List String) :
    Except String (StokvelPayoutSchedule × PaymentsManager) :=
  match List.lookup stokvel_id pm.stokvel_schedules with
  | some sch => .ok (sch, pm)
  | none =>
    match pm.savings_manager.get_stokvel stokvel_id with
    | .error e => .error e
    | .ok stv =>
      let sch0 : StokvelPayoutSchedule := { stokvel_id := stokvel_id }
      let accepted := stv.get_accepted_members
      let sch1 :=
        if accepted.isEmpty then sch0
        else (sch0.init_payout_order accepted σ).2
      .ok (sch1, { pm with stokvel_schedules := dictSet stokvel_id sch1 pm.stokvel_schedules })

/-- `PaymentsManager.request_individual_withdrawal`: purge expired pins,
validate the amount against the user's savings balance, and issue a new
pending PIN carrying the freshly drawn `code`. -/
def PaymentsManager.request_individual_withdrawal (pm : PaymentsManager)
    (user_id phone_number : String) (amount : Rat) (code : String) (now : Int) :
    Except String PaymentPIN × PaymentsManager :=
  let pm1 := pm.cleanup_expired_pins now
  if amount ≤ 0 ∨ amount > 5000 then
    (.error "Withdrawal amount must be between R0 and R5,000.", pm1)
  else
    match pm1.savings_manager.get_individual_savings user_id with
    | .error e => (.error e, pm1)
    | .ok savings =>
      if amount > savings.get_total_savings then
        (.error "Insufficient funds.", pm1)
      else
        let r := pm1.generate_pin_id
        let pin := PaymentPIN.create r.1 user_id phone_number amount
          .individual_savings (some user_id) code now
        (.ok pin, { r.2 with pins := dictSet r.1 pin r.2.pins })

/-- `PaymentsManager.get_remaining_payout_amount`: `0.0` unless the user is
the queue head; otherwise the pool minus the user's pending/completed
stokvel-payout pins against this stokvel, floored at 0 and rounded. -/
def PaymentsManager.get_remaining_payout_amount (pm : PaymentsManager)
    (user_id stokvel_id : String) (σ : List String → List String) :
    Except String (Rat × PaymentsManager) :=
  match pm.savings_manager.get_stokvel stokvel_id with
  | .error e => .error e
  | .ok stv =>
    match pm.get_or_create_schedule stokvel_id σ with
    | .error e => .error e
    | .ok (sch, pm1) =>
      if ¬ sch.is_member_next user_id then
        .ok (0, pm1)
      else
        let total_available := stv.get_stokvel_total
        let user_stokvel_pins := (pm1.pins.map (·.2)).filter (fun p =>
          decide (p.user_id = user_id ∧ p.source_id = some stokvel_id ∧
            p.withdrawal_type = WithdrawalType.stokvel_payout ∧
            (p.status = WithdrawalStatus.pending ∨ p.status = WithdrawalStatus.completed)))
        let withdrawn := (user_stokvel_pins.map (·.amount)).sum
        .ok (round2 (max 0 (total_available - withdrawn)), pm1)

/-- The code+contact matcher of `verify_and_redeem_pin`: note it does not
restrict the pin's status. -/
def pinMatches (code phone : String) (p : PaymentPIN) : Bool :=
  decide (p.pin_code = code ∧ p.phone_number = phone)

/-- `PaymentsManager.verify_and_redeem_pin`: purge expired pins, take the
first pin (insertion order) whose code and contact match regardless of its
status; fail invalid-credentials when none matches, fail expired/used when
that first match is not valid, else redeem it and return the receipt. -/
def PaymentsManager.verify_and_redeem_pin (pm : PaymentsManager)
    (pin_code phone_number : String) (now : Int) :
    Except String Receipt × PaymentsManager :=
  let pm1 := pm.cleanup_expired_pins now
  match pm1.pins.find? (fun kp => pinMatches pin_code phone_number kp.2) with
  | none => (.error "Invalid PIN or phone number.", pm1)
  | some (k, p) =>
    if ¬ p.is_valid now then
      (.error ("PIN has expired or already been used. Status: " ++ p.status.value), pm1)
    else
      let p' := (p.redeem now).2
      let pm2 := { pm1 with pins := dictSet k p' pm1.pins }
      (.ok { amount := p'.amount, user_id := p'.user_id
             withdrawal_type := p'.withdrawal_type, redeemed_at := p'.redeemed_at }, pm2)

/-- `PaymentsManager.cancel_withdrawal`: only the owner may cancel; the
pin-level `cancel` then enforces the pending-only rule. -/
def PaymentsManager.cancel_withdrawal (pm : PaymentsManager)
    (pin_id user_id : String) : Except String Bool × PaymentsManager :=
  match List.lookup pin_id pm.pins with
  | none => (.error "PIN not found.", pm)
  | some p =>
    if p.user_id ≠ user_id then
      (.error "You can only cancel your own withdrawals.", pm)
    else
      match p.cancel with
      | (.error e, p') => (.error e, { pm with pins := dictSet pin_id p' pm.pins })
      | (.ok b, p') => (.ok b, { pm with pins := dictSet pin_id p' pm.pins })

/-! ## security.py -/

/-- `SecurityEventType` (security.py). -/
inductive SecurityEventType
  | login_attempt
  | withdrawal_request
  | pin_verification
  | failed_pin_attempt
  | account_locked
  | suspicious_activity
  | rate_limit_exceeded
deriving DecidableEq

/-- `RiskLevel` (security.py). -/
inductive RiskLevel
  | low
  | medium
  | high
  | critical
deriving DecidableEq

/-- `SecurityEvent` (security.py), reduced to the fields the control flow
uses (the free-form `details` dict and ip address are elided). -/
structure SecurityEvent where
  event_id : String
  user_id : String
  event_type : SecurityEventType
  risk_level : RiskLevel
  timestamp : Int
deriving DecidableEq

/-- `RateLimiter` (security.py): per-key ordered attempt timestamps. -/
structure RateLimiter where
  action_counts : List (String × List Int) := []
deriving DecidableEq

/-- `RateLimiter.check_rate_limit`: purge attempts at or before
`now - window`, store the purged list back, and report whether a further
attempt is allowed plus the attempts remaining. -/
def RateLimiter.check_rate_limit (rl : RateLimiter) (key : String)
    (max_attempts : Nat) (time_window_minutes : Int) (now : Int) :
    (Bool × Nat) × RateLimiter :=
  let cutoff := now - time_window_minutes
  let old := (List.lookup key rl.action_counts).getD []
  let purged := old.filter (fun t => decide (t > cutoff))
  let rl1 : RateLimiter := { action_counts := dictSet key purged rl.action_counts }
  if purged.length ≥ max_attempts then
    ((false, 0), rl1)
  else
    ((true, max_attempts - purged.length), rl1)

/-- `RateLimiter.record_attempt`: append the current time under the key. -/
def RateLimiter.record_attempt (rl : RateLimiter) (key : String) (now : Int) :
    RateLimiter :=
  let old := (List.lookup key rl.action_counts).getD []
  { action_counts := dictSet key (old ++ [now]) rl.action_counts }

/-- `AccountSecurity` (security.py); the policy constants are
`max_failed_attempts = 3` and `lockout_duration_minutes = 30`. -/
structure AccountSecurity where
  user_id : String
  failed_pin_attempts : Nat := 0
  last_failed_attempt : Option Int := none
  is_locked : Bool := false
  locked_until : Option Int := none
deriving DecidableEq

/-- `AccountSecurity.max_failed_attempts`. -/
def AccountSecurity.max_failed_attempts : Nat := 3

/-- `AccountSecurity.lockout_duration_minutes`. -/
def AccountSecurity.lockout_duration_minutes : Int := 30

/-- `AccountSecurity.lock_account`: set the lockout flag and the unlock
time 30 minutes ahead. -/
def AccountSecurity.lock_account (a : AccountSecurity) (now : Int) : AccountSecurity :=
  { a with is_locked := true,
           locked_until := some (now + AccountSecurity.lockout_duration_minutes) }

/-- `AccountSecurity.record_failed_pin_attempt`: bump the counter and lock
once it reaches the threshold of 3. -/
def AccountSecurity.record_failed_pin_attempt (a : AccountSecurity) (now : Int) :
    AccountSecurity :=
  let a1 := { a with failed_pin_attempts := a.failed_pin_attempts + 1,
                     last_failed_attempt := some now }
  if a1.failed_pin_attempts ≥ AccountSecurity.max_failed_attempts then
    a1.lock_account now
  else
    a1

/-- `AccountSecurity.unlock_account`: clear the flag, the unlock time and
the failure counter. -/
def AccountSecurity.unlock_account (a : AccountSecurity) : AccountSecurity :=
  { a with is_locked := false, locked_until := none, failed_pin_attempts := 0 }

/-- `AccountSecurity.check_if_locked`: report the lockout state,
auto-unlocking first when the lockout window has elapsed. -/
def AccountSecurity.check_if_locked (a : AccountSecurity) (now : Int) :
    Bool × AccountSecurity :=
  if ¬ a.is_locked then
    (false, a)
  else
    match a.locked_until with
    | some t => if now ≥ t then (false, a.unlock_account) else (true, a)
    | none => (true, a)

/-- `AccountSecurity.reset_failed_attempts`. -/
def AccountSecurity.reset_failed_attempts (a : AccountSecurity) : AccountSecurity :=
  { a with failed_pin_attempts := 0, last_failed_attempt := none }

/-- `AccountSecurity.get_lockout_time_remaining` (in minutes, matching the
integer timeline). -/
def AccountSecurity.get_lockout_time_remaining (a : AccountSecurity) (now : Int) :
    Option Int :=
  if ¬ a.is_locked then none
  else
    match a.locked_until with
    | none => none
    | some t => if t - now > 0 then some (t - now) else none

/-- The `(bool, message)` results of `SecurityManager.verify_pin_attempt`;
the source's formatted strings are abstracted to their discriminating
content. -/
inductive PinVerifyMessage
  | account_locked_wait (minutes : Int)
  | too_many_attempts
  | verified
  | locked_for_duration (minutes : Int)
  | invalid_remaining (remaining : Int)
deriving DecidableEq

/-- `SecurityManager` (security.py). -/
structure SecurityManager where
  security_events : List (String × SecurityEvent) := []
  account_security : List (String × AccountSecurity) := []
  rate_limiter : RateLimiter := {}
  event_counter : Nat := 0
deriving DecidableEq

/-- `SecurityManager.log_security_event` (ids elide the date component). -/
def SecurityManager.log_security_event (sm : SecurityManager) (user_id : String)
    (event_type : SecurityEventType) (risk_level : RiskLevel) (now : Int) :
    SecurityManager :=
  let n := sm.event_counter + 1
  let eid := "SEC_" ++ toString n
  let e : SecurityEvent :=
    { event_id := eid, user_id := user_id, event_type := event_type,
      risk_level := risk_level, timestamp := now }
  { sm with event_counter := n, security_events := dictSet eid e sm.security_events }

/-- `SecurityManager.get_or_create_account_security`. -/
def SecurityManager.get_or_create_account_security (sm : SecurityManager)
    (user_id : String) : AccountSecurity × SecurityManager :=
  match List.lookup user_id sm.account_security with
  | some a => (a, sm)
  | none =>
    let a : AccountSecurity := { user_id := user_id }
    (a, { sm with account_security := dictSet user_id a sm.account_security })

/-- `SecurityManager.verify_pin_attempt`: lockout check (with lazy
auto-unlock), rate limit `pin_verify_{user}` at 10 per 60 minutes, then on a
code+contact match reset the failure counter, and on a mismatch record the
failure (locking at the third), answering with the attempts remaining or a
just-locked message. -/
def SecurityManager.verify_pin_attempt (sm : SecurityManager)
    (pin_code phone actual_pin actual_phone user_id : String) (now : Int) :
    (Bool × PinVerifyMessage) × SecurityManager :=
  let r0 := sm.get_or_create_account_security user_id
  let sm1 := r0.2
  let r1 := r0.1.check_if_locked now
  let acc1 := r1.2
  let sm2 := { sm1 with account_security := dictSet user_id acc1 sm1.account_security }
  if r1.1 then
    let minutes := (acc1.get_lockout_time_remaining now).getD 0
    ((false, .account_locked_wait minutes), sm2)
  else
    let key := "pin_verify_" ++ user_id
    let r2 := sm2.rate_limiter.check_rate_limit key 10 60 now
    let sm3 := { sm2 with rate_limiter := r2.2 }
    if ¬ r2.1.1 then
      ((false, .too_many_attempts),
        sm3.log_security_event user_id .rate_limit_exceeded .critical now)
    else
      let sm4 := { sm3 with rate_limiter := sm3.rate_limiter.record_attempt key now }
      if pin_code = actual_pin ∧ phone = actual_phone then
        let acc2 := acc1.reset_failed_attempts
        let sm5 := { sm4 with
          account_security := dictSet user_id acc2 sm4.account_security }
        ((true, .verified), sm5.log_security_event user_id .pin_verification .low now)
      else
        let acc2 := acc1.record_failed_pin_attempt now
        let sm5 := ({ sm4 with
          account_security := dictSet user_id acc2 sm4.account_security
          }).log_security_event user_id .failed_pin_attempt .high now
        let remaining : Int :=
          (AccountSecurity.max_failed_attempts : Int) - (acc2.failed_pin_attempts : Int)
        let r3 := acc2.check_if_locked now
        let sm6 := { sm5 with
          account_security := dictSet user_id r3.2 sm5.account_security }
        if r3.1 then
          ((false, .locked_for_duration AccountSecurity.lockout_duration_minutes), sm6)
        else
          ((false, .invalid_remaining remaining), sm6)

/-! ## Generic instances and computation lemmas -/

instance {ε α : Type} [DecidableEq ε] [DecidableEq α] : DecidableEq (Except ε α) :=
  fun a b =>
    match a, b with
    | .error e, .error f =>
      match decEq e f with
      | isTrue h => isTrue (by rw [h])
      | isFalse h => isFalse (fun hc => by cases hc; exact h rfl)
    | .ok x, .ok y =>
      match decEq x y with
      | isTrue h => isTrue (by rw [h])
      | isFalse h => isFalse (fun hc => by cases hc; exact h rfl)
    | .error _, .ok _ => isFalse (fun hc => by cases hc)
    | .ok _, .error _ => isFalse (fun hc => by cases hc)

/-- `round2` is the identity on integers. -/
theorem round2_intCast (k : Int) : round2 (k : Rat) = k := by
  have h : ((k : Rat)) = ((100 * k : Int) : Rat) / 100 := by push_cast; ring
  rw [h, round2_cent]

/-! ## Claim theorems -/

/-- Concrete accepted manager member used by several scenarios. -/
def memberMgr : MemberData := { status := .accepted, is_manager := true, joined_at := some 0 }

/-- Concrete accepted non-manager member used by several scenarios. -/
def memberAcc : MemberData := { status := .accepted, is_manager := false, joined_at := some 0 }

/-- A two-member stokvel (manager "A", plain member "B") with empty ledgers. -/
def stokvelAB : Stokvel :=
  { stokvel_id := "S", name := "N", manager_id := "A", monthly_amount := 500,
    members := [("A", memberMgr), ("B", memberAcc)],
    contributions := [("A", []), ("B", [])], created_at := 0 }

/-- C1: in a 2-member stokvel, the non-manager member's `leave_stokvel`
raises the MIN_MEMBERS error, but only after the member was already marked
`left` (with `left_at` set), so the failed call does not leave the state
unchanged: the member's status is `left`, not `accepted`.  This contradicts
the claim (and the spec's no-partial-side-effects rule): the code performs
the minimum-members check after the status mutation. -/
theorem C1_leave_fails_but_marks_left :
    (stokvelAB.leave_stokvel "B" id 5).1 =
      Except.error "Cannot leave - stokvel needs minimum 2 members." ∧
    (List.lookup "B" (stokvelAB.leave_stokvel "B" id 5).2.members).map
      (fun d => d.status) = some MemberStatus.left := by
  decide

/-- C5: a `PaymentPIN` in any terminal (non-pending) status is frozen:
`redeem` fails with the invalid/expired error and returns the pin with every
field (status, redeemed timestamp, and the rest) unchanged, `cancel` fails
with the not-cancellable error without mutation, and the lazy expiry check
is a no-op — so the `PENDING → {COMPLETED, EXPIRED, CANCELLED}` transition
can happen at most once. -/
theorem C5_terminal_pin_frozen (p : PaymentPIN) (now : Int)
    (h : p.status ≠ WithdrawalStatus.pending) :
    p.redeem now = (Except.error "PIN is not valid or has expired.", p) ∧
    p.cancel = (Except.error "Can only cancel pending withdrawals.", p) ∧
    p.mark_expired now = (false, p) := by
  have hv : p.is_valid now = false := by
    unfold PaymentPIN.is_valid
    simp [h]
  refine ⟨?_, ?_, ?_⟩
  · unfold PaymentPIN.redeem
    rw [hv]
    simp
  · unfold PaymentPIN.cancel
    rw [if_pos h]
  · unfold PaymentPIN.mark_expired
    rw [if_neg (by simp [h])]

/-- A concrete already-completed pin. -/
def pinDone : PaymentPIN :=
  { pin_id := "PIN_1", user_id := "U", phone_number := "p", amount := 50,
    withdrawal_type := .individual_savings, source_id := some "U",
    pin_code := "11111", created_at := 0, expires_at := 1440,
    status := .completed, redeemed_at := some 10 }

/-- Witness for C5 at the concrete completed pin `pinDone`. -/
theorem C5_terminal_pin_frozen_witness :
    pinDone.status ≠ WithdrawalStatus.pending ∧
    pinDone.redeem 20 = (Except.error "PIN is not valid or has expired.", pinDone) := by
  refine ⟨by decide, (C5_terminal_pin_frozen pinDone 20 (by decide)).1⟩

/-- C10: `get_progress_percentage` returns `none` whenever the savings goal
is unset or zero, for any contribution history — the division by the goal is
never attempted. -/
theorem C10_progress_none_when_no_goal (s : IndividualSavings)
    (h : s.savings_goal = none ∨ s.savings_goal = some 0) :
    s.get_progress_percentage = none := by
  unfold IndividualSavings.get_progress_percentage
  rcases h with h | h <;> simp [h]

/-- A savings account with a zero goal and a nonempty history. -/
def savingsZeroGoal : IndividualSavings :=
  { user_id := "U", savings_goal := some 0,
    contributions := [{ amount := 5, date := 0 }], created_at := 0 }

/-- Witness for C10 at a concrete account with goal 0 and one contribution. -/
theorem C10_progress_none_when_no_goal_witness :
    savingsZeroGoal.savings_goal = some 0 ∧
    savingsZeroGoal.get_progress_percentage = none :=
  ⟨rfl, C10_progress_none_when_no_goal savingsZeroGoal (Or.inr rfl)⟩

/-- An existing pending pin holding code "00000". -/
def pinDup : PaymentPIN :=
  { pin_id := "PIN_1", user_id := "U", phone_number := "p", amount := 20,
    withdrawal_type := .individual_savings, source_id := some "U",
    pin_code := "00000", created_at := 0, expires_at := 1440,
    status := .pending, redeemed_at := none }

/-- A savings account for "U" holding R100. -/
def savingsU : IndividualSavings :=
  { user_id := "U", savings_goal := none,
    contributions := [{ amount := 100, date := 0 }], created_at := 0 }

/-- A payments manager already holding the pending pin `pinDup`. -/
def pmC4 : PaymentsManager :=
  { savings_manager := { stokvels := [], individual_savings := [("U", savingsU)] },
    pins := [("PIN_1", pinDup)], stokvel_schedules := [], pin_counter := 1 }

theorem round2_hundred : round2 (100 : Rat) = 100 := by
  rw [show ((100:Rat)) = (((100:Int)):Rat) by norm_num, round2_intCast]

theorem savingsU_total : savingsU.get_total_savings = 100 := by
  unfold IndividualSavings.get_total_savings savingsU
  simp [round2_hundred]

/-- C4: `_generate_pin` draws 5 random digits with no check against the
codes of currently pending pins (contradicting its own docstring
"Generate a unique 5-digit PIN"): with a pending pin coded "00000" in the
store, a withdrawal request whose random draw is again "00000" succeeds and
leaves two distinct PENDING pins with the same code. -/
theorem C4_duplicate_pending_code :
    ((pmC4.request_individual_withdrawal "U" "p" 50 "00000" 10).1.map
      (fun p => (p.pin_code, p.status)) = Except.ok ("00000", WithdrawalStatus.pending)) ∧
    (((pmC4.request_individual_withdrawal "U" "p" 50 "00000" 10).2.pins.filter
        (fun kp => decide (kp.2.pin_code = "00000" ∧
          kp.2.status = WithdrawalStatus.pending))).length = 2) := by
  unfold PaymentsManager.request_individual_withdrawal
  simp only [PaymentsManager.cleanup_expired_pins, pmC4, pinDup, savingsU]
  norm_num [PaymentPIN.mark_expired, SavingsManager.get_individual_savings,
    List.lookup, savingsU_total, PaymentsManager.generate_pin_id, PaymentPIN.create,
    dictSet, IndividualSavings.get_total_savings, round2_hundred,
    show toString 2 = "2" from rfl, Except.map,
    show ("PIN_" ++ "2" : String) = "PIN_2" from rfl]
  simp [List.filter]

/-- Looking up a key just written by `dictSet` yields the written value. -/
theorem lookup_dictSet {α : Type} (k : String) (v : α) (l : List (String × α)) :
    List.lookup k (dictSet k v l) = some v := by
  induction l with
  | nil => simp [dictSet, List.lookup]
  | cons p rest ih =>
    obtain ⟨k', v'⟩ := p
    by_cases h : k' = k
    · simp [dictSet, h, List.lookup]
    · have hb : (k == k') = false := beq_eq_false_iff_ne.mpr (fun hc => h hc.symm)
      simp only [dictSet, if_neg h, List.lookup, hb]
      exact ih

/-- A completed pin whose code and contact will shadow a later pending pin. -/
def pinOld : PaymentPIN :=
  { pin_id := "PIN_1", user_id := "U", phone_number := "p", amount := 20,
    withdrawal_type := .individual_savings, source_id := some "U",
    pin_code := "77777", created_at := 0, expires_at := 1440,
    status := .completed, redeemed_at := some 5 }

/-- A pending, unexpired pin with the same code and contact as `pinOld`. -/
def pinNew : PaymentPIN :=
  { pin_id := "PIN_2", user_id := "U", phone_number := "p", amount := 30,
    withdrawal_type := .individual_savings, source_id := some "U",
    pin_code := "77777", created_at := 2, expires_at := 1442,
    status := .pending, redeemed_at := none }

/-- A payments manager whose pin store holds `pinOld` before `pinNew`. -/
def pmC3 : PaymentsManager :=
  { savings_manager := {}, pins := [("PIN_1", pinOld), ("PIN_2", pinNew)],
    stokvel_schedules := [], pin_counter := 2 }

/-- C3 counterexample: a pending, unexpired pin (`pinNew`) matching code
"77777" and contact "p" exists, yet `verify_and_redeem_pin` fails with the
expired/used error because the scan returns the first matching pin of any
status (`pinOld`, completed) — the claim says the call should locate the
pending pin and redeem it. -/
theorem C3_shadowed_pending_pin :
    (pmC3.verify_and_redeem_pin "77777" "p" 10).1 =
      Except.error "PIN has expired or already been used. Status: completed" ∧
    List.lookup "PIN_2" pmC3.pins = some pinNew ∧
    pinNew.pin_code = "77777" ∧ pinNew.phone_number = "p" ∧
    pinNew.is_valid 10 = true := by
  decide

/-- C3 (amended): `verify_and_redeem_pin` scans the pins in insertion order
and takes the first whose code and contact both match, with no status
filter; when that first match is pending and unexpired, the call redeems it
(status becomes completed, redemption time set to now) and returns the
receipt with its amount, user id, withdrawal kind and redemption timestamp.
Invalid-credentials is raised only when no pin of any status matches, and a
pending matching pin can be shadowed by an earlier non-pending match
(see the counterexample). -/
theorem C3_first_match_redeems (pm : PaymentsManager) (code phone : String)
    (now : Int) (k : String) (p : PaymentPIN)
    (hfind : (pm.cleanup_expired_pins now).pins.find?
        (fun kp => pinMatches code phone kp.2) = some (k, p))
    (hvalid : p.is_valid now = true) :
    (pm.verify_and_redeem_pin code phone now).1 =
      Except.ok
        { amount := p.amount, user_id := p.user_id,
          withdrawal_type := p.withdrawal_type, redeemed_at := some now } ∧
    List.lookup k (pm.verify_and_redeem_pin code phone now).2.pins =
      some { p with status := .completed, redeemed_at := some now } := by
  unfold PaymentsManager.verify_and_redeem_pin PaymentPIN.redeem
  simp [hfind, hvalid, lookup_dictSet]

/-- A payments manager holding only the pending pin `pinNew`. -/
def pmC3w : PaymentsManager :=
  { savings_manager := {}, pins := [("PIN_2", pinNew)],
    stokvel_schedules := [], pin_counter := 2 }

/-- Witness for C3 (amended) at `pmC3w`: the first match is `pinNew`, it is
valid at time 10, and the call redeems it. -/
theorem C3_first_match_redeems_witness :
    (pmC3w.cleanup_expired_pins 10).pins.find?
        (fun kp => pinMatches "77777" "p" kp.2) = some ("PIN_2", pinNew) ∧
    pinNew.is_valid 10 = true ∧
    (pmC3w.verify_and_redeem_pin "77777" "p" 10).1 =
      Except.ok
        { amount := pinNew.amount, user_id := pinNew.user_id,
          withdrawal_type := pinNew.withdrawal_type, redeemed_at := some 10 } :=
  ⟨by decide, by decide,
    (C3_first_match_redeems pmC3w "77777" "p" 10 "PIN_2" pinNew
      (by decide) (by decide)).1⟩

/-- A stokvel with accepted members "A", "B" where only "A" contributed. -/
def stokvelC7 : Stokvel :=
  { stokvel_id := "S", name := "N", manager_id := "A", monthly_amount := 500,
    members := [("A", memberMgr), ("B", memberAcc)],
    contributions := [("A", [{ amount := 100, date := 0 }]), ("B", [])],
    created_at := 0 }

/-- A schedule for `stokvelC7` whose queue head is "A". -/
def schedC7 : StokvelPayoutSchedule :=
  { stokvel_id := "S", current_cycle_members := ["A", "B"],
    upcoming_payouts := ["A", "B"] }

/-- The payments manager embedding `stokvelC7` and `schedC7`, no pins. -/
def pmC7 : PaymentsManager :=
  { savings_manager := { stokvels := [("S", stokvelC7)], individual_savings := [] },
    pins := [], stokvel_schedules := [("S", schedC7)], pin_counter := 0 }

theorem stokvelC7_total : stokvelC7.get_stokvel_total = 100 := by
  unfold Stokvel.get_stokvel_total stokvelC7 Stokvel.get_accepted_members
  simp [List.lookup, memberMgr, memberAcc, round2_hundred]

/-- C7 counterexample: member "B" is not the queue head, so the code
returns 0 — but the claim's formula (pool minus the sum of B's
pending/completed stokvel pins, floored at zero) yields 100, since the pool
is 100 and B has no pins at all. -/
theorem C7_not_next_returns_zero :
    pmC7.get_remaining_payout_amount "B" "S" id = Except.ok (0, pmC7) ∧
    stokvelC7.get_stokvel_total = 100 ∧
    round2 (max 0 (stokvelC7.get_stokvel_total - 0)) = 100 := by
  refine ⟨by decide, stokvelC7_total, ?_⟩
  rw [stokvelC7_total, show ((100:Rat) - 0) = 100 by norm_num,
    show (max 0 (100:Rat)) = 100 by norm_num, round2_hundred]

/-- C7 (amended): `get_remaining_payout_amount` equals the pool minus the
sum of the user's PENDING and COMPLETED stokvel-payout pins against the
stokvel, floored at zero and rounded to cents, only when the user is the
head of the payout queue; for any user who is not next it returns 0
regardless of that formula's value. -/
theorem C7_remaining_amount_formula (pm : PaymentsManager) (user sid : String)
    (σ : List String → List String) (stv : Stokvel)
    (sch : StokvelPayoutSchedule) (pm1 : PaymentsManager)
    (hstv : pm.savings_manager.get_stokvel sid = .ok stv)
    (hsch : pm.get_or_create_schedule sid σ = .ok (sch, pm1)) :
    pm.get_remaining_payout_amount user sid σ =
      .ok (if sch.is_member_next user then
        round2 (max 0 (stv.get_stokvel_total -
          (((pm1.pins.map (·.2)).filter (fun p => decide (p.user_id = user ∧
              p.source_id = some sid ∧
              p.withdrawal_type = WithdrawalType.stokvel_payout ∧
              (p.status = WithdrawalStatus.pending ∨
                p.status = WithdrawalStatus.completed)))).map (·.amount)).sum))
        else 0, pm1) := by
  unfold PaymentsManager.get_remaining_payout_amount
  rw [hstv, hsch]
  by_cases h : sch.is_member_next user
  · rw [if_pos h]
    simp [h]
  · rw [if_neg h]
    simp [h]

/-- Witness for C7 (amended) at `pmC7` with user "A", who is next: the
result is the claim's formula value. -/
theorem C7_remaining_amount_formula_witness :
    pmC7.savings_manager.get_stokvel "S" = .ok stokvelC7 ∧
    pmC7.get_or_create_schedule "S" id = .ok (schedC7, pmC7) ∧
    pmC7.get_remaining_payout_amount "A" "S" id =
      .ok (if schedC7.is_member_next "A" then
        round2 (max 0 (stokvelC7.get_stokvel_total -
          (((pmC7.pins.map (·.2)).filter (fun p => decide (p.user_id = "A" ∧
              p.source_id = some "S" ∧
              p.withdrawal_type = WithdrawalType.stokvel_payout ∧
              (p.status = WithdrawalStatus.pending ∨
                p.status = WithdrawalStatus.completed)))).map (·.amount)).sum))
        else 0, pmC7) :=
  ⟨by decide, by decide,
    C7_remaining_amount_formula pmC7 "A" "S" id stokvelC7 schedC7 pmC7
      (by decide) (by decide)⟩

/-- A stokvel with accepted "A", "B" and a pending invitation for "C". -/
def stokvelC2 : Stokvel :=
  { stokvel_id := "S", name := "N", manager_id := "A", monthly_amount := 500,
    members := [("A", memberMgr), ("B", memberAcc),
      ("C", { status := .pending, is_manager := false, invited_at := some 0 })],
    contributions := [("A", []), ("B", [])], created_at := 0 }

/-- The turn-enforcement queue created while "A", "B" were the accepted
members of `stokvelC2`. -/
def schedC2 : StokvelPayoutSchedule :=
  { stokvel_id := "S", current_cycle_members := ["A", "B"],
    upcoming_payouts := ["A", "B"] }

/-- The payments manager holding `stokvelC2` and its queue `schedC2`. -/
def pmC2 : PaymentsManager :=
  { savings_manager := { stokvels := [("S", stokvelC2)], individual_savings := [] },
    pins := [], stokvel_schedules := [("S", schedC2)], pin_counter := 0 }

/-- `stokvelC2` after member "C" accepts the invitation. -/
def stokvelC2x : Stokvel := (stokvelC2.accept_invitation "C" id 5).2

/-- The payments manager after the membership change: the savings-side
stokvel object is updated in place; nothing touches the payout schedules. -/
def pmC2x : PaymentsManager :=
  { pmC2 with savings_manager :=
      { stokvels := dictSet "S" stokvelC2x pmC2.savings_manager.stokvels,
        individual_savings := [] } }

/-- C2 counterexample: after "C" accepts the invitation (a membership
change), the turn-enforcement queue stored in the payments manager is
untouched (still `schedC2`) and is no longer a permutation of the current
accepted members: accepted member "C" does not appear in it. -/
theorem C2_membership_change_queue_stale :
    (stokvelC2.accept_invitation "C" id 5).1 = Except.ok true ∧
    stokvelC2x.get_accepted_members = ["A", "B", "C"] ∧
    List.lookup "S" pmC2x.stokvel_schedules = some schedC2 ∧
    ¬ schedC2.upcoming_payouts.Perm stokvelC2x.get_accepted_members := by
  refine ⟨by decide, by decide, by decide, fun hp => ?_⟩
  have hC : "C" ∈ stokvelC2x.get_accepted_members := by decide
  have : "C" ∈ schedC2.upcoming_payouts := hp.mem_iff.mpr hC
  exact absurd this (by decide)

/-- C2 (amended): the savings-side `accept_invitation`/`leave_stokvel`
regenerate only the stokvel-internal payout-date schedule; the payments-side
turn-enforcement queue is created once, on first access, as a permutation of
the accepted members at that moment (empty when there are none), stored
under the stokvel id, and is not regenerated by later membership changes
(see the counterexample for the resulting staleness). -/
theorem C2_queue_perm_at_creation (pm : PaymentsManager) (sid : String)
    (σ : List String → List String) (stv : Stokvel)
    (sch : StokvelPayoutSchedule) (pm1 : PaymentsManager)
    (hnew : List.lookup sid pm.stokvel_schedules = none)
    (hstv : pm.savings_manager.get_stokvel sid = .ok stv)
    (hσ : (σ stv.get_accepted_members).Perm stv.get_accepted_members)
    (hres : pm.get_or_create_schedule sid σ = .ok (sch, pm1)) :
    sch.upcoming_payouts.Perm stv.get_accepted_members ∧
    List.lookup sid pm1.stokvel_schedules = some sch := by
  unfold PaymentsManager.get_or_create_schedule at hres
  simp only [hnew, hstv] at hres
  by_cases hacc : stv.get_accepted_members.isEmpty
  · have hempty : stv.get_accepted_members = [] := by
      simpa using hacc
    simp only [hacc, if_true, Except.ok.injEq, Prod.mk.injEq] at hres
    obtain ⟨rfl, rfl⟩ := hres
    exact ⟨by rw [hempty], lookup_dictSet sid _ _⟩
  · simp only [Bool.not_eq_true] at hacc
    simp only [hacc, StokvelPayoutSchedule.init_payout_order, if_false,
      Except.ok.injEq, Prod.mk.injEq, Bool.false_eq_true] at hres
    obtain ⟨rfl, rfl⟩ := hres
    exact ⟨hσ, lookup_dictSet sid _ _⟩

/-- A payments manager with no schedule yet for "S". -/
def pmC2w : PaymentsManager :=
  { savings_manager := { stokvels := [("S", stokvelC2)], individual_savings := [] },
    pins := [], stokvel_schedules := [], pin_counter := 0 }

/-- Witness for C2 (amended): first access creates the queue for "S" as a
permutation of the then-accepted members ["A", "B"]. -/
theorem C2_queue_perm_at_creation_witness :
    List.lookup "S" pmC2w.stokvel_schedules = none ∧
    pmC2w.savings_manager.get_stokvel "S" = .ok stokvelC2 ∧
    pmC2w.get_or_create_schedule "S" id =
      .ok (schedC2, { pmC2w with stokvel_schedules := [("S", schedC2)] }) ∧
    schedC2.upcoming_payouts.Perm stokvelC2.get_accepted_members :=
  ⟨by decide, by decide, by decide,
    (C2_queue_perm_at_creation pmC2w "S" id stokvelC2 schedC2
      { pmC2w with stokvel_schedules := [("S", schedC2)] }
      (by decide) (by decide) (List.Perm.refl _) (by decide)).1⟩

theorem ratFloor_div (n : Int) (d : Nat) :
    Rat.floor ((n : Rat) / (d : Rat)) = n / (d : Int) := by
  rw [ratFloor_eq_floor, Rat.floor_intCast_div_natCast]

theorem round2_c9_group : round2 (251 / 125 : Rat) = 201 / 100 := by
  unfold round2 roundHalfEven ratRound
  rw [show (100 : Rat) * (251 / 125) = ((1004 : Int) : Rat) / ((5 : Nat) : Rat) by
    push_cast; norm_num]
  rw [ratFloor_div]
  rw [if_neg (by push_cast; norm_num)]
  rw [show ((1004 : Int) : Rat) / ((5 : Nat) : Rat) + 1 / 2 =
    ((2013 : Int) : Rat) / ((10 : Nat) : Rat) by push_cast; norm_num]
  rw [ratFloor_div]
  push_cast
  norm_num

theorem round2_c9_member : round2 (251 / 250 : Rat) = 1 := by
  unfold round2 roundHalfEven ratRound
  rw [show (100 : Rat) * (251 / 250) = ((502 : Int) : Rat) / ((5 : Nat) : Rat) by
    push_cast; norm_num]
  rw [ratFloor_div]
  rw [if_neg (by push_cast; norm_num)]
  rw [show ((502 : Int) : Rat) / ((5 : Nat) : Rat) + 1 / 2 =
    ((1009 : Int) : Rat) / ((10 : Nat) : Rat) by push_cast; norm_num]
  rw [ratFloor_div]
  push_cast
  norm_num

/-- A stokvel where "A" and "B" each contributed R1.004. -/
def stokvelC9 : Stokvel :=
  { stokvel_id := "S", name := "N", manager_id := "A", monthly_amount := 500,
    members := [("A", memberMgr), ("B", memberAcc)],
    contributions := [("A", [{ amount := 251/250, date := 0 }]),
                      ("B", [{ amount := 251/250, date := 0 }])],
    created_at := 0 }

theorem stokvelC9_member_A : stokvelC9.get_member_total "A" = 1 := by
  unfold Stokvel.get_member_total stokvelC9
  simp only [List.lookup]
  norm_num [round2_c9_member]

theorem stokvelC9_member_B : stokvelC9.get_member_total "B" = 1 := by
  unfold Stokvel.get_member_total stokvelC9
  simp [List.lookup]
  norm_num [round2_c9_member]

/-- C9 counterexample: with both accepted members contributing R1.004, the
group total (rounded once, over the raw sum 2.008) is R2.01, while the sum
of the per-member rounded totals (R1.00 each) is R2.00 — the summation
invariant fails for amounts that are not whole cents. -/
theorem C9_rounding_mismatch :
    stokvelC9.get_stokvel_total = 201 / 100 ∧
    (stokvelC9.get_accepted_members.map stokvelC9.get_member_total).sum = 2 ∧
    (201 / 100 : Rat) ≠ 2 := by
  refine ⟨?_, ?_, by norm_num⟩
  · unfold Stokvel.get_stokvel_total stokvelC9 Stokvel.get_accepted_members
    simp [List.lookup, memberMgr, memberAcc]
    norm_num [round2_c9_group]
  · have ha : stokvelC9.get_accepted_members = ["A", "B"] := by decide
    rw [ha]
    norm_num [stokvelC9_member_A, stokvelC9_member_B]

theorem cents_sum {l : List Rat}
    (h : ∀ x ∈ l, ∃ k : Int, x = (k : Rat) / 100) :
    ∃ k : Int, l.sum = (k : Rat) / 100 := by
  induction l with
  | nil => exact ⟨0, by norm_num⟩
  | cons a t ih =>
    obtain ⟨ka, hka⟩ := h a (by simp)
    obtain ⟨kt, hkt⟩ := ih (fun x hx => h x (by simp [hx]))
    refine ⟨ka + kt, ?_⟩
    rw [List.sum_cons, hka, hkt]
    push_cast
    ring

theorem round2_eq_self {x : Rat} (h : ∃ k : Int, x = (k : Rat) / 100) :
    round2 x = x := by
  obtain ⟨k, rfl⟩ := h
  exact round2_cent k

theorem lookup_mem {α : Type} {k : String} {v : α} {l : List (String × α)}
    (h : List.lookup k l = some v) : (k, v) ∈ l := by
  induction l with
  | nil => simp [List.lookup] at h
  | cons p t ih =>
    obtain ⟨k', v'⟩ := p
    by_cases hk : (k == k') = true
    · simp only [List.lookup, hk] at h
      obtain rfl := Option.some.inj h
      have : k = k' := by simpa using hk
      simp [this]
    · have hk' : (k == k') = false := by simpa using hk
      simp only [List.lookup, hk'] at h
      exact List.mem_cons_of_mem _ (ih h)

theorem round2_sum_map (l : List String) (g : String → Rat)
    (hg : ∀ m ∈ l, ∃ k : Int, g m = (k : Rat) / 100) :
    round2 ((l.map g).sum) = (l.map (fun m => round2 (g m))).sum := by
  induction l with
  | nil =>
    simp only [List.map_nil, List.sum_nil]
    exact round2_eq_self ⟨0, by norm_num⟩
  | cons a t ih =>
    simp only [List.map_cons, List.sum_cons]
    obtain ⟨ka, hka⟩ := hg a (by simp)
    have ht : ∀ m ∈ t, ∃ k : Int, g m = (k : Rat) / 100 :=
      fun m hm => hg m (by simp [hm])
    obtain ⟨kt, hkt⟩ := cents_sum (l := t.map g) (fun x hx => by
      obtain ⟨m, hm, rfl⟩ := List.mem_map.mp hx
      exact ht m hm)
    rw [round2_eq_self ⟨ka + kt, by rw [hka, hkt]; push_cast; ring⟩,
      round2_eq_self ⟨ka, hka⟩, ← ih ht, round2_eq_self ⟨kt, hkt⟩]

/-- C9 (amended): the summation invariant
`get_stokvel_total = Σ accepted get_member_total` holds whenever every
contribution amount is a whole number of cents (an integer multiple of
R0.01); for amounts with fractional cents the two sides can differ, because
the group total rounds once over the raw sum while the right side rounds
each member's total separately (see the counterexample). -/
theorem C9_total_eq_sum_member_totals_cents (s : Stokvel)
    (h : ∀ p ∈ s.contributions, ∀ c ∈ p.2, ∃ k : Int, c.amount = (k : Rat) / 100) :
    s.get_stokvel_total =
      (s.get_accepted_members.map s.get_member_total).sum := by
  have hcent : ∀ m : String, ∃ k : Int,
      (match List.lookup m s.contributions with
        | some cs => (cs.map (fun c => c.amount)).sum
        | none => (0 : Rat)) = (k : Rat) / 100 := by
    intro m
    cases hl : List.lookup m s.contributions with
    | none => exact ⟨0, by norm_num⟩
    | some cs =>
      refine cents_sum ?_
      intro x hx
      obtain ⟨c, hc, rfl⟩ := List.mem_map.mp hx
      exact h _ (lookup_mem hl) c hc
  have hm : ∀ m : String, s.get_member_total m =
      round2 (match List.lookup m s.contributions with
        | some cs => (cs.map (fun c => c.amount)).sum
        | none => (0 : Rat)) := by
    intro m
    unfold Stokvel.get_member_total
    cases hl : List.lookup m s.contributions with
    | none =>
      simp only [hl]
      exact (round2_eq_self ⟨0, by norm_num⟩).symm
    | some cs => simp only [hl]
  unfold Stokvel.get_stokvel_total
  rw [List.map_congr_left (fun m _ => hm m)]
  exact round2_sum_map _ _ (fun m _ => hcent m)

/-- A stokvel whose contributions are whole cents: "A" gave R2.50, "B"
gave R1.25 and R0.75. -/
def stokvelC9w : Stokvel :=
  { stokvel_id := "S", name := "N", manager_id := "A", monthly_amount := 500,
    members := [("A", memberMgr), ("B", memberAcc)],
    contributions := [("A", [{ amount := 5/2, date := 0 }]),
                      ("B", [{ amount := 5/4, date := 1 }, { amount := 3/4, date := 2 }])],
    created_at := 0 }

/-- Witness for C9 (amended) at `stokvelC9w` (every amount a whole number
of cents): the two sides agree. -/
theorem C9_total_eq_sum_member_totals_cents_witness :
    (∀ p ∈ stokvelC9w.contributions, ∀ c ∈ p.2,
      ∃ k : Int, c.amount = (k : Rat) / 100) ∧
    stokvelC9w.get_stokvel_total =
      (stokvelC9w.get_accepted_members.map stokvelC9w.get_member_total).sum := by
  have h : ∀ p ∈ stokvelC9w.contributions, ∀ c ∈ p.2,
      ∃ k : Int, c.amount = (k : Rat) / 100 := by
    intro p hp c hc
    simp only [stokvelC9w, List.mem_cons, List.not_mem_nil, or_false] at hp
    rcases hp with rfl | rfl
    · simp only [List.mem_cons, List.not_mem_nil, or_false] at hc
      subst hc
      exact ⟨250, by norm_num⟩
    · simp only [List.mem_cons, List.not_mem_nil, or_false] at hc
      rcases hc with rfl | rfl
      · exact ⟨125, by norm_num⟩
      · exact ⟨75, by norm_num⟩
  exact ⟨h, C9_total_eq_sum_member_totals_cents stokvelC9w h⟩

theorem Vote.cast_vote_is_active (v : Vote) (m : String) (b : Bool) :
    (v.cast_vote m b).is_active = v.is_active := rfl

theorem Vote.cast_vote_passed (v : Vote) (m : String) (b : Bool) :
    (v.cast_vote m b).passed = v.passed := rfl

theorem Vote.cast_vote_expires_at (v : Vote) (m : String) (b : Bool) :
    (v.cast_vote m b).expires_at = v.expires_at := rfl

theorem calculate_payout_dates_votes (s : Stokvel)
    (σ : List String → List String) (now : Int) :
    (s.calculate_payout_dates σ now).votes = s.votes := by
  unfold Stokvel.calculate_payout_dates
  by_cases h : s.get_accepted_members.isEmpty <;> simp [h]

theorem change_manager_votes (s : Stokvel) (m : String) :
    (s.change_manager m).votes = s.votes := rfl

/-- C8: casting a ballot on an active vote records it and immediately marks
the vote passed exactly when the yes-ballots (with the new ballot counted)
reach `floor(current accepted count / 2) + 1`, independently of no-ballots
and of the time remaining; with 5 accepted members the threshold is 3, and
with 4 accepted members it is also 3 (`5/2+1 = 4/2+1 = 3`). -/
theorem C8_vote_passes_at_majority (s : Stokvel) (vote_id member_id : String)
    (vote_yes : Bool) (σ : List String → List String) (now : Int) (v : Vote)
    (hv : List.lookup vote_id s.votes = some v)
    (hm : member_id ∈ s.get_accepted_members)
    (ha : v.is_active = true) (hp : v.passed = false) :
    (s.cast_vote vote_id member_id vote_yes σ now).1 =
      Except.ok (decide ((v.cast_vote member_id vote_yes).yes_votes ≥
        s.get_accepted_members.length / 2 + 1)) ∧
    (List.lookup vote_id (s.cast_vote vote_id member_id vote_yes σ now).2.votes).map
        (fun w => w.passed) =
      some (decide ((v.cast_vote member_id vote_yes).yes_votes ≥
        s.get_accepted_members.length / 2 + 1)) := by
  unfold Stokvel.cast_vote
  simp only [hv]
  rw [if_neg (by simpa using hm)]
  rw [if_neg (by simp [ha])]
  unfold Vote.check_if_passed
  simp only [Vote.cast_vote_is_active, Vote.cast_vote_expires_at, ha]
  by_cases hth : (v.cast_vote member_id vote_yes).yes_votes ≥
      s.get_accepted_members.length / 2 + 1
  · rw [if_pos hth]
    simp only [not_true, if_false]
    cases hV : v.vote_type with
    | manager_change =>
      simp [hV, hth, lookup_dictSet, change_manager_votes, Vote.cast_vote]
      exact hth
    | monthly_amount_change =>
      simp [hV, hth, lookup_dictSet, calculate_payout_dates_votes, Vote.cast_vote]
      exact hth
  · rw [if_neg hth]
    by_cases hexp : now ≥ v.expires_at
    · rw [if_pos hexp]
      simp [hth, hp, lookup_dictSet, Vote.cast_vote_passed]
    · rw [if_neg hexp]
      simp [hth, hp, lookup_dictSet, Vote.cast_vote_passed]

/-- An active manager-change vote with ballots yes("A"), yes("B"), no("D"). -/
def voteC8 : Vote :=
  { vote_id := "VOTE_S_0001", stokvel_id := "S", vote_type := .manager_change,
    proposal := { new_manager := some "B" }, initiated_by := "A",
    votes := [("A", true), ("B", true), ("D", false)], created_at := 0,
    expires_at := 1440, is_active := true, passed := false }

/-- A stokvel with 5 accepted members carrying the active vote `voteC8`. -/
def stokvelC8 : Stokvel :=
  { stokvel_id := "S", name := "N", manager_id := "A", monthly_amount := 500,
    members := [("A", memberMgr), ("B", memberAcc), ("C", memberAcc),
      ("D", memberAcc), ("E", memberAcc)],
    contributions := [("A", []), ("B", []), ("C", []), ("D", []), ("E", [])],
    votes := [("VOTE_S_0001", voteC8)], created_at := 0, vote_counter := 1 }

/-- Witness for C8: with 5 accepted members, the instant the third
yes-ballot is cast (by "C") the vote passes, despite a recorded no-ballot
and regardless of the remaining time. -/
theorem C8_vote_passes_at_majority_witness :
    List.lookup "VOTE_S_0001" stokvelC8.votes = some voteC8 ∧
    "C" ∈ stokvelC8.get_accepted_members ∧
    voteC8.is_active = true ∧ voteC8.passed = false ∧
    stokvelC8.get_accepted_members.length = 5 ∧
    (voteC8.cast_vote "C" true).yes_votes = 3 ∧
    (stokvelC8.cast_vote "VOTE_S_0001" "C" true id 10).1 = Except.ok true ∧
    (List.lookup "VOTE_S_0001"
        (stokvelC8.cast_vote "VOTE_S_0001" "C" true id 10).2.votes).map
      (fun w => w.passed) = some true := by
  have h := C8_vote_passes_at_majority stokvelC8 "VOTE_S_0001" "C" true id 10
    voteC8 (by decide) (by decide) rfl rfl
  refine ⟨by decide, by decide, rfl, rfl, by decide, by decide, ?_, ?_⟩
  · rw [h.1]
    rfl
  · rw [h.2]
    rfl

/-- The account after one more failed attempt is recorded (before any
lockout decision). -/
def bumpFail (a : AccountSecurity) (now : Int) : AccountSecurity :=
  { a with failed_pin_attempts := a.failed_pin_attempts + 1,
           last_failed_attempt := some now }

/-- One failed `verify_pin_attempt` call from an unlocked account `a` and a
rate window `ow` under the limit: the counter is bumped (locking at 3), the
attempt is recorded, and the answer is the attempts remaining or the
just-locked message. -/
theorem verify_pin_fail_step (sm : SecurityManager)
    (c p actual aphone user : String) (now : Int)
    (a : AccountSecurity) (ow : List Int)
    (hacc : (List.lookup user sm.account_security).getD
      { user_id := user } = a)
    (hnl : a.is_locked = false)
    (hwin : (List.lookup ("pin_verify_" ++ user)
      sm.rate_limiter.action_counts).getD [] = ow)
    (hlen : ow.length < 10)
    (hw : ¬(c = actual ∧ p = aphone)) :
    (sm.verify_pin_attempt c p actual aphone user now).1 =
      (false,
        if a.failed_pin_attempts + 1 ≥ 3 then .locked_for_duration 30
        else .invalid_remaining (3 - ((a.failed_pin_attempts + 1 : Nat) : Int))) ∧
    List.lookup user
        (sm.verify_pin_attempt c p actual aphone user now).2.account_security =
      some (if a.failed_pin_attempts + 1 ≥ 3 then
        (bumpFail a now).lock_account now else bumpFail a now) ∧
    (List.lookup ("pin_verify_" ++ user)
        (sm.verify_pin_attempt c p actual aphone user now).2.rate_limiter.action_counts).getD [] =
      ow.filter (fun t => decide (t > now - 60)) ++ [now] := by
  have hplen : ¬ ((ow.filter (fun t => decide (t > now - 60))).length ≥ 10) :=
    not_le.mpr (lt_of_le_of_lt (List.length_filter_le _ _) hlen)
  unfold SecurityManager.verify_pin_attempt
    SecurityManager.get_or_create_account_security
    AccountSecurity.check_if_locked RateLimiter.check_rate_limit
    RateLimiter.record_attempt SecurityManager.log_security_event
    AccountSecurity.record_failed_pin_attempt AccountSecurity.lock_account
    AccountSecurity.max_failed_attempts AccountSecurity.lockout_duration_minutes
  cases hl : List.lookup user sm.account_security with
  | none =>
    rw [hl] at hacc
    simp only [Option.getD] at hacc
    subst hacc
    simp only [hl, hwin, hnl, Bool.false_eq_true, not_false_iff, if_true,
      lookup_dictSet, Option.getD_some, if_neg hplen, if_neg hw]
    simp [bumpFail, lookup_dictSet]
  | some a0 =>
    rw [hl] at hacc
    simp only [Option.getD_some] at hacc
    subst hacc
    simp only [hl, hwin, hnl, Bool.false_eq_true, not_false_iff, if_true,
      lookup_dictSet, Option.getD_some, if_neg hplen, if_neg hw]
    by_cases hc : a0.failed_pin_attempts + 1 ≥ 3
    · simp [hc, bumpFail, lookup_dictSet,
        if_neg (show ¬ now ≥ now + 30 by omega)]
    · simp [hc, bumpFail, lookup_dictSet, hnl]

/-- One successful `verify_pin_attempt` call from an unlocked account under
the rate limit: the failure counter is reset to zero. -/
theorem verify_pin_success_step (sm : SecurityManager)
    (c p actual aphone user : String) (now : Int)
    (a : AccountSecurity) (ow : List Int)
    (hacc : (List.lookup user sm.account_security).getD
      { user_id := user } = a)
    (hnl : a.is_locked = false)
    (hwin : (List.lookup ("pin_verify_" ++ user)
      sm.rate_limiter.action_counts).getD [] = ow)
    (hlen : ow.length < 10)
    (hm : c = actual ∧ p = aphone) :
    (sm.verify_pin_attempt c p actual aphone user now).1 = (true, .verified) ∧
    List.lookup user
        (sm.verify_pin_attempt c p actual aphone user now).2.account_security =
      some a.reset_failed_attempts := by
  have hplen : ¬ ((ow.filter (fun t => decide (t > now - 60))).length ≥ 10) :=
    not_le.mpr (lt_of_le_of_lt (List.length_filter_le _ _) hlen)
  unfold SecurityManager.verify_pin_attempt
    SecurityManager.get_or_create_account_security
    AccountSecurity.check_if_locked RateLimiter.check_rate_limit
    RateLimiter.record_attempt SecurityManager.log_security_event
  cases hl : List.lookup user sm.account_security with
  | none =>
    rw [hl] at hacc
    simp only [Option.getD] at hacc
    subst hacc
    simp only [hl, hwin, hnl, Bool.false_eq_true, not_false_iff, if_true,
      lookup_dictSet, Option.getD_some, if_neg hplen, if_pos hm]
    simp [lookup_dictSet]
  | some a0 =>
    rw [hl] at hacc
    simp only [Option.getD_some] at hacc
    subst hacc
    simp only [hl, hwin, hnl, Bool.false_eq_true, not_false_iff, if_true,
      lookup_dictSet, Option.getD_some, if_neg hplen, if_pos hm]
    simp [lookup_dictSet, hnl]

/-- A `verify_pin_attempt` call against a still-locked account is denied
with the minutes remaining, toucher neither the account nor the limiter. -/
theorem verify_pin_locked_step (sm : SecurityManager)
    (c p actual aphone user : String) (now : Int)
    (a : AccountSecurity) (T : Int)
    (hacc : (List.lookup user sm.account_security).getD
      { user_id := user } = a)
    (hlk : a.is_locked = true) (hlu : a.locked_until = some T)
    (hnow : now < T) :
    (sm.verify_pin_attempt c p actual aphone user now).1 =
      (false, .account_locked_wait (T - now)) ∧
    List.lookup user
        (sm.verify_pin_attempt c p actual aphone user now).2.account_security =
      some a ∧
    (sm.verify_pin_attempt c p actual aphone user now).2.rate_limiter =
      sm.rate_limiter := by
  unfold SecurityManager.verify_pin_attempt
    SecurityManager.get_or_create_account_security
    AccountSecurity.check_if_locked AccountSecurity.get_lockout_time_remaining
  cases hl : List.lookup user sm.account_security with
  | none =>
    rw [hl] at hacc
    simp only [Option.getD] at hacc
    rw [← hacc] at hlk
    simp at hlk
  | some a0 =>
    rw [hl] at hacc
    simp only [Option.getD_some] at hacc
    subst hacc
    simp only [hl, hlk, hlu, if_neg (show ¬ now ≥ T by omega),
      if_pos (show T - now > 0 by omega), lookup_dictSet]
    simp [lookup_dictSet, hlk, hlu, hnow]

/-- C6: starting from a user with no security record (zero failed-attempt
counter) and no prior rate-limit window, three consecutive failed PIN-verify
attempts (wrong code or contact) answer "2 remaining", "1 remaining", then
lock the account for 30 minutes (locked-until = third failure time + 30);
a fourth attempt before the lockout elapses is denied as locked even with
the correct code and contact; a successful verification before the third
failure resets the counter to zero; and once the time reaches locked-until
the lockout auto-clears, with the flag false and the counter zero. -/
theorem C6_lockout_after_three_failures
    (sm0 : SecurityManager) (user actual aphone : String)
    (c1 p1 c2 p2 c3 p3 : String) (t1 t2 t3 t4 t5 : Int)
    (hacc : List.lookup user sm0.account_security = none)
    (hrl : List.lookup ("pin_verify_" ++ user) sm0.rate_limiter.action_counts = none)
    (hw1 : ¬(c1 = actual ∧ p1 = aphone))
    (hw2 : ¬(c2 = actual ∧ p2 = aphone))
    (hw3 : ¬(c3 = actual ∧ p3 = aphone))
    (ht4 : t4 < t3 + 30) (ht5 : t3 + 30 ≤ t5) :
    let s1 := (sm0.verify_pin_attempt c1 p1 actual aphone user t1).2
    let s2 := (s1.verify_pin_attempt c2 p2 actual aphone user t2).2
    let s3 := (s2.verify_pin_attempt c3 p3 actual aphone user t3).2
    let a3 := (List.lookup user s3.account_security).getD { user_id := user }
    (sm0.verify_pin_attempt c1 p1 actual aphone user t1).1 =
      (false, .invalid_remaining 2) ∧
    (s1.verify_pin_attempt c2 p2 actual aphone user t2).1 =
      (false, .invalid_remaining 1) ∧
    (s2.verify_pin_attempt c3 p3 actual aphone user t3).1 =
      (false, .locked_for_duration 30) ∧
    (List.lookup user s3.account_security).map
      (fun a => (a.is_locked, a.locked_until, a.failed_pin_attempts)) =
      some (true, some (t3 + 30), 3) ∧
    (s3.verify_pin_attempt actual aphone actual aphone user t4).1 =
      (false, .account_locked_wait (t3 + 30 - t4)) ∧
    (s2.verify_pin_attempt actual aphone actual aphone user t3).1 =
      (true, .verified) ∧
    (List.lookup user
        (s2.verify_pin_attempt actual aphone actual aphone user t3).2.account_security).map
      (fun a => a.failed_pin_attempts) = some 0 ∧
    (a3.check_if_locked t5).1 = false ∧
    (a3.check_if_locked t5).2.is_locked = false ∧
    (a3.check_if_locked t5).2.failed_pin_attempts = 0 := by
  intro s1 s2 s3 a3
  -- step 1: first failure, counter 0 → 1
  obtain ⟨h1r, h1acc, h1win⟩ := verify_pin_fail_step sm0 c1 p1 actual aphone
    user t1 { user_id := user } [] (by rw [hacc]; rfl) rfl
    (by rw [hrl]; rfl) (by norm_num) hw1
  rw [if_neg (by norm_num)] at h1r h1acc
  simp only [List.filter_nil, List.nil_append] at h1win
  -- step 2: second failure, counter 1 → 2
  obtain ⟨h2r, h2acc, h2win⟩ := verify_pin_fail_step s1 c2 p2 actual aphone
    user t2 (bumpFail { user_id := user } t1) [t1]
    (by rw [h1acc]; rfl) rfl (by rw [h1win]) (by norm_num) hw2
  rw [if_neg (by simp [bumpFail])] at h2r h2acc
  -- step 3: third failure, counter 2 → 3, lock until t3 + 30
  have hlen3 : ([t1].filter (fun t => decide (t > t2 - 60)) ++ [t2]).length < 10 := by
    have := List.length_filter_le (fun t => decide (t > t2 - 60)) [t1]
    simp only [List.length_append, List.length_cons, List.length_nil] at this ⊢
    omega
  obtain ⟨h3r, h3acc, h3win⟩ := verify_pin_fail_step s2 c3 p3 actual aphone
    user t3 (bumpFail (bumpFail { user_id := user } t1) t2)
    ([t1].filter (fun t => decide (t > t2 - 60)) ++ [t2])
    (by rw [h2acc]; rfl) rfl (by rw [h2win]) hlen3 hw3
  rw [if_pos (by simp [bumpFail])] at h3r h3acc
  -- step 4: locked denial at t4 < t3 + 30, even with the correct code
  obtain ⟨h4r, _, _⟩ := verify_pin_locked_step s3 actual aphone actual aphone
    user t4 ((bumpFail (bumpFail (bumpFail { user_id := user } t1) t2) t3).lock_account t3)
    (t3 + 30) (by rw [h3acc]; rfl) rfl rfl ht4
  -- success instead of the third failure: counter resets to 0
  obtain ⟨h5r, h5acc⟩ := verify_pin_success_step s2 actual aphone actual aphone
    user t3 (bumpFail (bumpFail { user_id := user } t1) t2)
    ([t1].filter (fun t => decide (t > t2 - 60)) ++ [t2])
    (by rw [h2acc]; rfl) rfl (by rw [h2win]) hlen3 ⟨rfl, rfl⟩
  refine ⟨by rw [h1r]; norm_num, by rw [h2r]; norm_num [bumpFail], by rw [h3r], ?_,
    by rw [h4r], by rw [h5r], by rw [h5acc]; rfl, ?_, ?_, ?_⟩
  · rw [h3acc]
    simp [bumpFail, AccountSecurity.lock_account,
      AccountSecurity.lockout_duration_minutes]
  · show ((List.lookup user s3.account_security).getD _ |>.check_if_locked t5).1 = false
    rw [h3acc]
    simp [AccountSecurity.check_if_locked, AccountSecurity.lock_account,
      AccountSecurity.lockout_duration_minutes, Option.getD_some,
      if_pos (show t5 ≥ t3 + 30 by omega)]
  · show ((List.lookup user s3.account_security).getD _ |>.check_if_locked t5).2.is_locked = false
    rw [h3acc]
    simp [AccountSecurity.check_if_locked, AccountSecurity.unlock_account,
      AccountSecurity.lock_account, AccountSecurity.lockout_duration_minutes,
      if_pos (show t5 ≥ t3 + 30 by omega)]
  · show ((List.lookup user s3.account_security).getD _ |>.check_if_locked t5).2.failed_pin_attempts = 0
    rw [h3acc]
    simp [AccountSecurity.check_if_locked, AccountSecurity.unlock_account,
      AccountSecurity.lock_account, AccountSecurity.lockout_duration_minutes,
      if_pos (show t5 ≥ t3 + 30 by omega)]

/-- The security manager after one wrong attempt ("00000" vs "11111"). -/
def smW1 : SecurityManager :=
  (({} : SecurityManager).verify_pin_attempt "00000" "p" "11111" "p" "U" 0).2

/-- After a second wrong attempt. -/
def smW2 : SecurityManager :=
  (smW1.verify_pin_attempt "00000" "p" "11111" "p" "U" 1).2

/-- After the third wrong attempt (account now locked until minute 32). -/
def smW3 : SecurityManager :=
  (smW2.verify_pin_attempt "00000" "p" "11111" "p" "U" 2).2

/-- Witness for C6 at a fresh manager: wrong code "00000" against actual
"11111" at minutes 0, 1, 2 (lock), correct code denied at 10, auto-clear
checked at 40. -/
theorem C6_lockout_after_three_failures_witness :
    List.lookup "U" ({} : SecurityManager).account_security = none ∧
    (({} : SecurityManager).verify_pin_attempt "00000" "p" "11111" "p" "U" 0).1 =
      (false, .invalid_remaining 2) ∧
    (smW1.verify_pin_attempt "00000" "p" "11111" "p" "U" 1).1 =
      (false, .invalid_remaining 1) ∧
    (smW2.verify_pin_attempt "00000" "p" "11111" "p" "U" 2).1 =
      (false, .locked_for_duration 30) ∧
    (smW3.verify_pin_attempt "11111" "p" "11111" "p" "U" 10).1 =
      (false, .account_locked_wait 22) ∧
    (smW2.verify_pin_attempt "11111" "p" "11111" "p" "U" 2).1 =
      (true, .verified) ∧
    (((List.lookup "U" smW3.account_security).getD
      { user_id := "U" }).check_if_locked 40).1 = false ∧
    (((List.lookup "U" smW3.account_security).getD
      { user_id := "U" }).check_if_locked 40).2.failed_pin_attempts = 0 := by
  have h := C6_lockout_after_three_failures ({} : SecurityManager) "U" "11111"
    "p" "00000" "p" "00000" "p" "00000" "p" 0 1 2 10 40 rfl rfl
    (by simp) (by simp) (by simp) (by norm_num) (by norm_num)
  obtain ⟨h1, h2, h3, _, h5, h6, _, h8, _, h10⟩ := h
  refine ⟨rfl, h1, h2, h3, ?_, h6, h8, h10⟩
  have h5x := h5
  norm_num at h5x
  exact h5x

end Afriscore
